import Mathlib

/-!
# adb_install.cpp: the sideload session controller

A shallow embedding of `set_usb_driver`, `stop_adbd`, `is_ro_debuggable`,
`maybe_restart_adbd` and `apply_from_adb`.  The program talks to the operating
system only through calls whose answers it cannot control, so every answer is
read from an environment record (`Env`), and every call the program makes is
appended, in program order, to the trace of the `World` it runs in.
-/

namespace AdbInstall

/-! ## Constants -/

/-- Paths the source names through macros; only their identity matters. -/
inductive Path
  | SYSFS_USB_ENABLE_NODE
  | CONFIGFS_USB_ENABLE_NODE
  | FUSE_SIDELOAD_HOST_PATHNAME
  | FUSE_SIDELOAD_HOST_EXIT_PATHNAME
  deriving DecidableEq, Repr

/-- Value of `PROPERTY_VALUE_MAX` in cutils/properties.h. -/
def PROPERTY_VALUE_MAX : Nat := 92

/-- How long (in seconds) the host is given to start sending a package. -/
def ADB_INSTALL_TIMEOUT : Nat := 300

/-- Value of `ENOENT` in errno.h. -/
def ENOENT : Nat := 2

/-- Value of `SIGKILL` in signal.h. -/
def SIGKILL : Nat := 9

/-- Value of `WNOHANG` in sys/wait.h. -/
def WNOHANG : Nat := 1

/-- The NUL character that ends a C string and fills a zeroed array. -/
def NUL : Char := Char.ofNat 0

/-! ## Wait-status macros of sys/wait.h

A status word is kept as the natural number of its bit pattern, so that
`s & 0x7f` is `s % 128` and `(s & 0xff00) >> 8` is `s / 256 % 256`. -/

/-- The macro `WEXITSTATUS(s)`, that is `((s) & 0xff00) >> 8`. -/
def WEXITSTATUS (s : Nat) : Nat := s / 256 % 256

/-- The macro `WTERMSIG(s)`, that is `(s) & 0x7f`. -/
def WTERMSIG (s : Nat) : Nat := s % 128

/-- The macro `WIFEXITED(s)`, that is `WTERMSIG(s) == 0`. -/
def WIFEXITED (s : Nat) : Bool := WTERMSIG s == 0

/-- The macro `WIFSIGNALED(s)`, that is `WTERMSIG((s)+1) >= 2`. -/
def WIFSIGNALED (s : Nat) : Bool := decide (2 ≤ WTERMSIG (s + 1))

/-! ## Events and the world -/

/-- Texts the program prints with `printf`. -/
inductive Msg
  | failed_open_sysfs
  | failed_open_configfs
  | failed_set_driver_control
  | failed_close_driver_control
  | restarting_adbd
  | timed_out
  | need_newer_adb
  | status (code : Nat)
  deriving DecidableEq, Repr

/-- One call made by the program, with its arguments and, where the program
reads it, the answer it got.  `write` carries the object its buffer argument
points at (to the end of that object) and the byte count asked for. -/
inductive Event
  | property_set (key value : String)
  | property_get (key : String)
  | open_node (path : Path) (fd : Int)
  | write (node : Path) (fd : Int) (buf : List Char) (count : Nat) (ret : Int)
  | close (fd : Int) (ret : Int)
  | printf (m : Msg)
  | fork (ret : Int)
  | execl (install_file : String)
  | exit_child (code : Int)
  | waitpid (pid : Int) (options : Nat) (ret : Int) (status : Nat)
  | stat (path : Path) (ret : Int)
  | sleep (seconds : Nat)
  | kill (pid : Int) (sig : Nat)
  deriving DecidableEq, Repr

/-- The state outside the program: `driver` is the DriverState (true is
enabled), `adbd` the ServiceState (true is running), `trace` the calls made so
far, oldest first. -/
structure World where
  driver : Bool
  adbd : Bool
  trace : List Event
  deriving DecidableEq, Repr

/-- Record a call. -/
def emit (w : World) (e : Event) : World :=
  { w with trace := w.trace ++ [e] }

/-- A world in which the program has made no call yet. -/
def World.boot (driver adbd : Bool) : World :=
  { driver := driver, adbd := adbd, trace := [] }

/-! ## Answers of the operating system -/

/-- What one call of `set_usb_driver` gets back: the descriptors returned by
the two `open` calls, the value of `TEMP_FAILURE_RETRY(write(...))` and the
value of `close`. -/
structure DriverIO where
  sysfs_fd : Int
  configfs_fd : Int
  write_ret : Int
  close_ret : Int
  deriving DecidableEq, Repr

/-- What a `waitpid` call gets back: its return value and the contents of the
status word once it has returned. -/
structure WaitResult where
  ret : Int
  status : Nat
  deriving DecidableEq, Repr

/-- What a `stat` call gets back: its return value and `errno`. -/
structure StatResult where
  ret : Int
  errno : Nat
  deriving DecidableEq, Repr

/-- Every answer a run of `apply_from_adb` can read.  `usb n` answers the
`set_usb_driver` call number `n` of the run (0 in `stop_adbd`, 1 before the
fork, 2 after the poll loop, 3 in `maybe_restart_adbd`); `wait_nohang i` and
`stat_host i` answer the two calls of poll iteration `i`. -/
structure Env where
  props : String → String
  usb : Nat → DriverIO
  fork_ret : Int
  execl_fails : Bool
  wait_nohang : Nat → WaitResult
  stat_host : Nat → StatResult
  stat_exit : StatResult
  wait_block : WaitResult
  uninit_status : Nat

/-! ## Library calls -/

/-- The call `property_get(key, value, default_value)` of libcutils: the
stored value when it is not empty, otherwise the default when one is given;
returns the length and the string left in `value`. -/
def property_get (props : String → String) (key : String)
    (default_value : Option String) : Nat × String :=
  let v := props key
  if 0 < v.length then (v.length, v)
  else match default_value with
    | some d => ((d.take (PROPERTY_VALUE_MAX - 1)).length, d.take (PROPERTY_VALUE_MAX - 1))
    | none => (0, "")

/-- The call `property_set(key, value)`: the init process stops or starts the
named service on `ctl.stop` and `ctl.start`. -/
def property_set (w : World) (key value : String) : World :=
  let w := emit w (.property_set key value)
  if key = "ctl.stop" ∧ value = "adbd" then { w with adbd := false }
  else if key = "ctl.start" ∧ value = "adbd" then { w with adbd := true }
  else w

/-- The object a string literal denotes: its characters and the final NUL. -/
def cstr (s : String) : List Char := s.toList ++ [NUL]

/-- A zero-initialised `char[n]` after the string `s` was copied to its start. -/
def char_array (n : Nat) (s : String) : List Char :=
  s.toList ++ List.replicate (n - s.length) NUL

/-- A write to a driver control node asking for state `requested`; the driver
takes that state when the write does not fail. -/
def driver_write (w : World) (node : Path) (fd : Int) (buf : List Char)
    (count : Nat) (ret : Int) (requested : Bool) : World :=
  let w := emit w (.write node fd buf count ret)
  if ret = -1 then w else { w with driver := requested }

/-! ## set_usb_driver (lines 44-87) -/

/-- Lines 67-86 of `set_usb_driver`: the write on the opened node and the
close. -/
def set_usb_driver_write (io : DriverIO) (enabled : Bool) (controller_name : List Char)
    (fd : Int) (configfs_enabled : Bool) (w : World) : World :=
  let w :=
    if !configfs_enabled then
      let w := driver_write w .SYSFS_USB_ENABLE_NODE fd
        (cstr (if enabled then "1" else "0")) 1 io.write_ret enabled
      if io.write_ret = -1 then emit w (.printf .failed_set_driver_control) else w
    else
      let w := driver_write w .CONFIGFS_USB_ENABLE_NODE fd
        (if enabled then controller_name else cstr "none") PROPERTY_VALUE_MAX
        io.write_ret enabled
      if io.write_ret ≠ 0 then emit w (.printf .failed_set_driver_control) else w
  let w := emit w (.close fd io.close_ret)
  if io.close_ret < 0 then emit w (.printf .failed_close_driver_control) else w

/-- The function `set_usb_driver(enabled)`. -/
def set_usb_driver (io : DriverIO) (props : String → String) (enabled : Bool)
    (w : World) : World :=
  let fd := io.sysfs_fd
  let w := emit w (.open_node .SYSFS_USB_ENABLE_NODE fd)
  let controller_name :=
    char_array (PROPERTY_VALUE_MAX + 1) (property_get props "sys.usb.controller" (some "none")).2
  let w := emit w (.property_get "sys.usb.controller")
  if fd < 0 then
    let w := emit w (.printf .failed_open_sysfs)
    let fd := io.configfs_fd
    let w := emit w (.open_node .CONFIGFS_USB_ENABLE_NODE fd)
    if fd < 0 then
      emit w (.printf .failed_open_configfs)
    else
      set_usb_driver_write io enabled controller_name fd true w
  else
    set_usb_driver_write io enabled controller_name fd false w

/-! ## stop_adbd, is_ro_debuggable, maybe_restart_adbd (lines 89-108) -/

/-- The function `stop_adbd()`. -/
def stop_adbd (io : DriverIO) (props : String → String) (w : World) : World :=
  let w := property_set w "ctl.stop" "adbd"
  set_usb_driver io props false w

/-- The function `is_ro_debuggable()`. -/
def is_ro_debuggable (props : String → String) : Bool :=
  let r := property_get props "ro.debuggable" none
  r.1 == 1 && r.2.toList.head? == some '1'

/-- The function `maybe_restart_adbd()`. -/
def maybe_restart_adbd (io : DriverIO) (props : String → String) (w : World) : World :=
  let w := emit w (.property_get "ro.debuggable")
  if is_ro_debuggable props then
    let w := emit w (.printf .restarting_adbd)
    let w := set_usb_driver io props true w
    property_set w "ctl.start" "adbd"
  else w

/-! ## apply_from_adb (lines 114-190) -/

/-- The locals of `apply_from_adb` that the poll loop assigns. -/
structure Locals where
  result : Int
  status : Nat
  waited : Bool
  deriving DecidableEq, Repr

/-- How control leaves the `for` statement of lines 139-160. -/
inductive LoopExit
  | returned
  | broke
  | exhausted
  deriving DecidableEq, Repr

/-- State when control leaves the `for` statement. -/
structure LoopOut where
  exit : LoopExit
  locals : Locals
  world : World
  deriving DecidableEq, Repr

/-- The `for` statement of lines 139-160, entered with loop variable `i`.  The
first argument bounds the number of iterations still to run;
`ADB_INSTALL_TIMEOUT - i` is always enough. -/
def poll_loop (env : Env) (child : Int) : Nat → Nat → Locals → World → LoopOut
  | 0, _, l, w => { exit := .exhausted, locals := l, world := w }
  | fuel + 1, i, l, w =>
    if i < ADB_INSTALL_TIMEOUT then
      let wr := env.wait_nohang i
      let w := emit w (.waitpid child WNOHANG wr.ret wr.status)
      let l := { l with status := wr.status }
      if wr.ret ≠ 0 then
        { exit := .broke, locals := { l with result := -1, waited := true }, world := w }
      else
        let sr := env.stat_host i
        let w := emit w (.stat .FUSE_SIDELOAD_HOST_PATHNAME sr.ret)
        if sr.ret ≠ 0 then
          if sr.errno = ENOENT ∧ i < ADB_INSTALL_TIMEOUT - 1 then
            let w := emit w (.sleep 1)
            poll_loop env child fuel (i + 1) l w
          else
            let w := emit w (.printf .timed_out)
            let w := emit w (.kill child SIGKILL)
            { exit := .broke, locals := { l with result := -1 }, world := w }
        else
          { exit := .returned, locals := l, world := w }
    else { exit := .exhausted, locals := l, world := w }

/-- Lines 165-175: the exit sentinel and the blocking wait, unless the child
was already waited for. -/
def reap_child (env : Env) (child : Int) (l : Locals) (w : World) : Locals × World :=
  if !l.waited then
    let w := emit w (.stat .FUSE_SIDELOAD_HOST_EXIT_PATHNAME env.stat_exit.ret)
    let w := emit w (.waitpid child 0 env.wait_block.ret env.wait_block.status)
    ({ l with status := env.wait_block.status }, w)
  else (l, w)

/-- Lines 177-184: the result as decided by the wait status. -/
def classify (l : Locals) (w : World) : Locals × World :=
  if !WIFEXITED l.status || WEXITSTATUS l.status != 0 then
    if WEXITSTATUS l.status == 3 then
      ({ l with result := -2 }, emit w (.printf .need_newer_adb))
    else if !WIFSIGNALED l.status then
      (l, emit w (.printf (.status (WEXITSTATUS l.status))))
    else (l, w)
  else (l, w)

/-- What a run of `apply_from_adb` leaves behind: the value returned (`none`
in the forked child, which never returns from the function), the contents of
`*child_pid`, the local `status`, and the world. -/
structure Run where
  ret : Option Int
  child_pid : Int
  status : Nat
  world : World
  deriving DecidableEq, Repr

/-- Lines 162-189: the path taken when the poll loop did not return. -/
def finish (env : Env) (child : Int) (l : Locals) (w : World) : Run :=
  let child_pid := 0
  let (l, w) := reap_child env child l w
  let (l, w) := classify l w
  let w := set_usb_driver (env.usb 2) env.props false w
  let w := maybe_restart_adbd (env.usb 3) env.props w
  { ret := some l.result, child_pid := child_pid, status := l.status, world := w }

/-- Lines 117-118: what runs before the fork. -/
def prepare (env : Env) (w : World) : World :=
  let w := stop_adbd (env.usb 0) env.props w
  set_usb_driver (env.usb 1) env.props true w

/-- The function `apply_from_adb(install_file, child_pid)`.  `INSTALL_ERROR`
is the constant of install.h, `child_pid` the contents of `*child_pid` on
entry. -/
def apply_from_adb (INSTALL_ERROR : Int) (env : Env) (install_file : String)
    (child_pid : Int) (w : World) : Run :=
  let w := prepare env w
  let child := env.fork_ret
  let w := emit w (.fork child)
  if child = 0 then
    let w := emit w (.execl install_file)
    let w := if env.execl_fails then emit w (.exit_child (-1)) else w
    { ret := none, child_pid := child_pid, status := env.uninit_status, world := w }
  else
    let child_pid := child
    let out := poll_loop env child ADB_INSTALL_TIMEOUT 0
      { result := INSTALL_ERROR, status := env.uninit_status, waited := false } w
    match out.exit with
    | .returned =>
      { ret := some 0, child_pid := child_pid, status := out.locals.status, world := out.world }
    | _ => finish env child out.locals out.world

/-! ## Reading a trace -/

/-- A failed `stat` of the arrival sentinel. -/
def is_failed_host_stat : Event → Bool
  | .stat .FUSE_SIDELOAD_HOST_PATHNAME ret => decide (ret ≠ 0)
  | _ => false

/-- Any `stat` of the arrival sentinel. -/
def is_host_stat : Event → Bool
  | .stat .FUSE_SIDELOAD_HOST_PATHNAME _ => true
  | _ => false

/-- Any `stat` of the exit sentinel. -/
def is_exit_stat : Event → Bool
  | .stat .FUSE_SIDELOAD_HOST_EXIT_PATHNAME _ => true
  | _ => false

/-- A `sleep(1)`. -/
def is_sleep : Event → Bool
  | .sleep _ => true
  | _ => false

/-- Any `kill`. -/
def is_kill : Event → Bool
  | .kill _ _ => true
  | _ => false

/-- A `kill(child, SIGKILL)`. -/
def is_sigkill_of (child : Int) : Event → Bool
  | .kill pid sig => decide (pid = child ∧ sig = SIGKILL)
  | _ => false

/-- A `waitpid` without `WNOHANG`. -/
def is_blocking_wait : Event → Bool
  | .waitpid _ options _ _ => decide (options ≠ WNOHANG)
  | _ => false

/-- A call that acts on the driver control nodes or on the adbd service. -/
def is_driver_or_service : Event → Bool
  | .open_node _ _ => true
  | .write _ _ _ _ _ => true
  | .close _ _ => true
  | .property_set _ _ => true
  | _ => false

/-- The calls made after the first `fork` of a trace. -/
def after_fork : List Event → List Event
  | [] => []
  | .fork _ :: rest => rest
  | _ :: rest => after_fork rest

/-- The outcome the wait status decides on the failure path: -2 when its exit
status field is 3, otherwise -1. -/
def status_outcome (status : Nat) : Int :=
  if WEXITSTATUS status = 3 then -2 else -1

/-- A poll iteration that goes on to the next one: the child is reported
running and the arrival sentinel is reported missing. -/
def keeps_waiting (env : Env) (i : Nat) : Prop :=
  (env.wait_nohang i).ret = 0 ∧ (env.stat_host i).ret ≠ 0 ∧ (env.stat_host i).errno = ENOENT

/-- The calls of `n` poll iterations from iteration `i` on that all go on to
the next one. -/
def waiting_events (env : Env) (child : Int) : Nat → Nat → List Event
  | _, 0 => []
  | i, n + 1 =>
    [.waitpid child WNOHANG (env.wait_nohang i).ret (env.wait_nohang i).status,
     .stat .FUSE_SIDELOAD_HOST_PATHNAME (env.stat_host i).ret,
     .sleep 1] ++ waiting_events env child (i + 1) n

/-- The locals after `n` poll iterations from `i` on that all go on. -/
def waiting_locals (env : Env) : Nat → Nat → Locals → Locals
  | _, 0, l => l
  | i, n + 1, l => waiting_locals env (i + 1) n { l with status := (env.wait_nohang i).status }

/-- A call that acts on processes or on the sentinel paths. -/
def is_process_call : Event → Bool
  | .fork _ => true
  | .execl _ => true
  | .exit_child _ => true
  | .waitpid _ _ _ _ => true
  | .stat _ _ => true
  | .sleep _ => true
  | .kill _ _ => true
  | _ => false

/-- The calls one `set_usb_driver` makes. -/
def usb_events (io : DriverIO) (props : String → String) (enabled : Bool) : List Event :=
  (set_usb_driver io props enabled (World.boot false false)).trace

/-- The calls `maybe_restart_adbd` makes. -/
def restart_events (io : DriverIO) (props : String → String) : List Event :=
  (maybe_restart_adbd io props (World.boot false false)).trace

/-- The calls made before the fork. -/
def prepare_events (env : Env) : List Event :=
  (prepare env (World.boot false false)).trace

/-- The `printf` of lines 177-184, if any. -/
def classify_events (l : Locals) : List Event :=
  (classify l (World.boot false false)).2.trace

/-- The calls of lines 165-175, if any. -/
def reap_events (env : Env) (child : Int) (l : Locals) : List Event :=
  (reap_child env child l (World.boot false false)).2.trace

/-- The calls of lines 162-189. -/
def finish_events (env : Env) (child : Int) (l : Locals) : List Event :=
  (finish env child l (World.boot false false)).world.trace

/-- The legacy node opens as descriptor 3; the one-byte write and the close
succeed. -/
def legacy_ok : DriverIO :=
  { sysfs_fd := 3, configfs_fd := -1, write_ret := 1, close_ret := 0 }

/-- Only the configfs node opens, as descriptor 3; the write transfers all
`PROPERTY_VALUE_MAX` bytes and the close succeeds. -/
def configfs_ok : DriverIO :=
  { sysfs_fd := -1, configfs_fd := 3, write_ret := 92, close_ret := 0 }

/-- A property store with nothing set. -/
def no_props : String → String := fun _ => ""

/-- The package path passed by the caller in the examples. -/
def package_file : String := "/tmp/update.zip"

/-- The host never connects: the child (pid 100) is reported running at every
check, the sentinel is always missing, and the blocking wait collects `status`. -/
def env_timeout (status : Nat) : Env :=
  { props := no_props
    usb := fun _ => legacy_ok
    fork_ret := 100
    execl_fails := false
    wait_nohang := fun _ => { ret := 0, status := 0 }
    stat_host := fun _ => { ret := -1, errno := ENOENT }
    stat_exit := { ret := -1, errno := ENOENT }
    wait_block := { ret := 100, status := status }
    uninit_status := 0 }

/-- The sentinel appears in poll iteration `k`. -/
def env_arrival (k : Nat) : Env :=
  { props := no_props
    usb := fun _ => legacy_ok
    fork_ret := 100
    execl_fails := false
    wait_nohang := fun _ => { ret := 0, status := 0 }
    stat_host := fun i => if i < k then { ret := -1, errno := ENOENT } else { ret := 0, errno := 0 }
    stat_exit := { ret := -1, errno := ENOENT }
    wait_block := { ret := 100, status := 9 }
    uninit_status := 0 }

/-- The child (pid 100) is found to have ended, with wait status `status`, by
the non-blocking check of poll iteration `k`. -/
def env_child_exit (props : String → String) (k status : Nat) : Env :=
  { props := props
    usb := fun _ => legacy_ok
    fork_ret := 100
    execl_fails := false
    wait_nohang := fun i => if i < k then { ret := 0, status := 0 } else { ret := 100, status := status }
    stat_host := fun _ => { ret := -1, errno := ENOENT }
    stat_exit := { ret := -1, errno := ENOENT }
    wait_block := { ret := -1, status := status }
    uninit_status := 0 }

/-- The fork fails and the process has no child to wait for: `waitpid(-1)`
returns -1 and leaves `status` in the status word. -/
def env_fork_fails (status : Nat) : Env :=
  { props := no_props
    usb := fun _ => legacy_ok
    fork_ret := -1
    execl_fails := false
    wait_nohang := fun _ => { ret := -1, status := status }
    stat_host := fun _ => { ret := -1, errno := ENOENT }
    stat_exit := { ret := -1, errno := ENOENT }
    wait_block := { ret := -1, status := status }
    uninit_status := status }

/-- The fork fails while the process has other children, none of them ended:
every `waitpid(-1, WNOHANG)` returns 0; the sentinel is always missing. -/
def env_fork_fails_polling : Env :=
  { props := no_props
    usb := fun _ => legacy_ok
    fork_ret := -1
    execl_fails := false
    wait_nohang := fun _ => { ret := 0, status := 0 }
    stat_host := fun _ => { ret := -1, errno := ENOENT }
    stat_exit := { ret := -1, errno := ENOENT }
    wait_block := { ret := -1, status := 0 }
    uninit_status := 0 }

/-- The `printf` that reports a failed write to the driver control node. -/
def is_set_failure : Event → Bool
  | .printf .failed_set_driver_control => true
  | _ => false

/-- A `close`. -/
def is_close : Event → Bool
  | .close _ _ => true
  | _ => false

/-- The write requests of a trace: node, object pointed at, byte count. -/
def write_requests : List Event → List (Path × List Char × Nat)
  | [] => []
  | .write node _ buf count _ :: rest => (node, buf, count) :: write_requests rest
  | _ :: rest => write_requests rest

/-! ## Basic facts -/

@[simp] theorem emit_driver (w : World) (e : Event) : (emit w e).driver = w.driver := rfl

@[simp] theorem emit_adbd (w : World) (e : Event) : (emit w e).adbd = w.adbd := rfl

@[simp] theorem emit_trace (w : World) (e : Event) : (emit w e).trace = w.trace ++ [e] := rfl

@[simp] theorem waiting_locals_result (env : Env) (n i : Nat) (l : Locals) :
    (waiting_locals env i n l).result = l.result := by
  induction n generalizing i l with
  | zero => rfl
  | succ n ih => simp [waiting_locals, ih]

@[simp] theorem waiting_locals_waited (env : Env) (n i : Nat) (l : Locals) :
    (waiting_locals env i n l).waited = l.waited := by
  induction n generalizing i l with
  | zero => rfl
  | succ n ih => simp [waiting_locals, ih]

/-- One iteration that goes on: the loop continues at `i + 1` after a
`waitpid`, a `stat` and a `sleep`. -/
theorem poll_loop_step (env : Env) (child : Int) (fuel i : Nat) (l : Locals) (w : World)
    (hk : keeps_waiting env i) (hi : i < ADB_INSTALL_TIMEOUT - 1) :
    poll_loop env child (fuel + 1) i l w =
      poll_loop env child fuel (i + 1) { l with status := (env.wait_nohang i).status }
        { w with trace := w.trace ++ waiting_events env child i 1 } := by
  obtain ⟨h1, h2, h3⟩ := hk
  have hi2 : i < ADB_INSTALL_TIMEOUT := by omega
  simp [poll_loop, h1, h2, h3, hi, hi2, waiting_events, emit]

/-- Any number of iterations that go on: the loop continues at `i + n`. -/
theorem poll_loop_skip (env : Env) (child : Int) (n fuel i : Nat) (l : Locals) (w : World)
    (hk : ∀ j, i ≤ j → j < i + n → keeps_waiting env j)
    (hi : i + n ≤ ADB_INSTALL_TIMEOUT - 1) :
    poll_loop env child (fuel + n) i l w =
      poll_loop env child fuel (i + n) (waiting_locals env i n l)
        { w with trace := w.trace ++ waiting_events env child i n } := by
  induction n generalizing i l w with
  | zero => simp [waiting_events, waiting_locals]
  | succ n ih =>
    have h0 : keeps_waiting env i := hk i (le_refl i) (by omega)
    have e1 : fuel + (n + 1) = (fuel + n) + 1 := by omega
    rw [e1, poll_loop_step env child (fuel + n) i l w h0 (by omega)]
    rw [ih (i + 1) _ _ (fun j h1 h2 => hk j (by omega) (by omega)) (by omega)]
    have e2 : i + 1 + n = i + (n + 1) := by omega
    simp [waiting_events, waiting_locals, e2, List.append_assoc]

/-- An iteration that finds the arrival sentinel returns from the function. -/
theorem poll_loop_arrive (env : Env) (child : Int) (fuel i : Nat) (l : Locals) (w : World)
    (hi : i < ADB_INSTALL_TIMEOUT) (hw : (env.wait_nohang i).ret = 0)
    (hs : (env.stat_host i).ret = 0) :
    poll_loop env child (fuel + 1) i l w =
      { exit := .returned
        locals := { l with status := (env.wait_nohang i).status }
        world := { w with trace := w.trace ++
          [.waitpid child WNOHANG (env.wait_nohang i).ret (env.wait_nohang i).status,
           .stat .FUSE_SIDELOAD_HOST_PATHNAME (env.stat_host i).ret] } } := by
  simp [poll_loop, hi, hw, hs, emit]

/-- An iteration whose `waitpid` reports leaves the loop at once. -/
theorem poll_loop_child_exit (env : Env) (child : Int) (fuel i : Nat) (l : Locals) (w : World)
    (hi : i < ADB_INSTALL_TIMEOUT) (hw : (env.wait_nohang i).ret ≠ 0) :
    poll_loop env child (fuel + 1) i l w =
      { exit := .broke
        locals := { result := -1, status := (env.wait_nohang i).status, waited := true }
        world := { w with trace := w.trace ++
          [.waitpid child WNOHANG (env.wait_nohang i).ret (env.wait_nohang i).status] } } := by
  simp [poll_loop, hi, hw, emit]

/-- An iteration that gives up: the sentinel is missing and either the error
is not `ENOENT` or this is the last iteration. -/
theorem poll_loop_give_up (env : Env) (child : Int) (fuel i : Nat) (l : Locals) (w : World)
    (hi : i < ADB_INSTALL_TIMEOUT) (hw : (env.wait_nohang i).ret = 0)
    (hs : (env.stat_host i).ret ≠ 0)
    (hl : ¬ ((env.stat_host i).errno = ENOENT ∧ i < ADB_INSTALL_TIMEOUT - 1)) :
    poll_loop env child (fuel + 1) i l w =
      { exit := .broke
        locals := { result := -1, status := (env.wait_nohang i).status, waited := l.waited }
        world := { w with trace := w.trace ++
          [.waitpid child WNOHANG (env.wait_nohang i).ret (env.wait_nohang i).status,
           .stat .FUSE_SIDELOAD_HOST_PATHNAME (env.stat_host i).ret,
           .printf .timed_out,
           .kill child SIGKILL] } } := by
  simp only [poll_loop, emit, if_pos hi, hw, ne_eq, not_true_eq_false, if_false]
  rw [if_pos hs, if_neg hl]
  simp

/-- Whatever the answers, an entered loop never runs out of its condition: it
returns after a successful sentinel check made while the child was reported
running, or it breaks with `result` set to -1; and it leaves the driver and
the service alone. -/
theorem poll_loop_cases (env : Env) (child : Int) (fuel i : Nat) (l : Locals) (w : World)
    (hf : i + fuel = ADB_INSTALL_TIMEOUT) (hi : i < ADB_INSTALL_TIMEOUT) :
    (poll_loop env child fuel i l w).world.driver = w.driver ∧
    (poll_loop env child fuel i l w).world.adbd = w.adbd ∧
    (((poll_loop env child fuel i l w).exit = .returned ∧
        ∃ k, k < ADB_INSTALL_TIMEOUT ∧ (env.wait_nohang k).ret = 0 ∧
          (env.stat_host k).ret = 0) ∨
     ((poll_loop env child fuel i l w).exit = .broke ∧
        (poll_loop env child fuel i l w).locals.result = -1 ∧
        (((poll_loop env child fuel i l w).locals.waited = true ∧
            ∃ k, k < ADB_INSTALL_TIMEOUT ∧ (env.wait_nohang k).ret ≠ 0 ∧
              (poll_loop env child fuel i l w).locals.status = (env.wait_nohang k).status) ∨
         (poll_loop env child fuel i l w).locals.waited = l.waited))) := by
  induction fuel generalizing i l w with
  | zero => omega
  | succ fuel ih =>
    by_cases hw : (env.wait_nohang i).ret = 0
    · by_cases hs : (env.stat_host i).ret = 0
      · rw [poll_loop_arrive env child fuel i l w hi hw hs]
        exact ⟨rfl, rfl, Or.inl ⟨rfl, i, hi, hw, hs⟩⟩
      · by_cases hl : (env.stat_host i).errno = ENOENT ∧ i < ADB_INSTALL_TIMEOUT - 1
        · rw [poll_loop_step env child fuel i l w ⟨hw, hs, hl.1⟩ hl.2]
          have h := ih (i + 1) { l with status := (env.wait_nohang i).status }
            { w with trace := w.trace ++ waiting_events env child i 1 } (by omega) (by omega)
          exact h
        · rw [poll_loop_give_up env child fuel i l w hi hw hs hl]
          exact ⟨rfl, rfl, Or.inr ⟨rfl, rfl, Or.inr rfl⟩⟩
    · rw [poll_loop_child_exit env child fuel i l w hi hw]
      exact ⟨rfl, rfl, Or.inr ⟨rfl, rfl, Or.inl ⟨rfl, i, hi, hw, rfl⟩⟩⟩

/-- The initial value of `result` does not reach the end of an entered loop:
exit, world, `status` and `waited` do not depend on it, and neither does
`result` once the loop broke. -/
theorem poll_loop_result_irrelevant (env : Env) (child : Int) (fuel i : Nat)
    (r1 r2 : Int) (s : Nat) (b : Bool) (w : World)
    (hf : i + fuel = ADB_INSTALL_TIMEOUT) (hi : i < ADB_INSTALL_TIMEOUT) :
    (poll_loop env child fuel i { result := r1, status := s, waited := b } w).exit =
      (poll_loop env child fuel i { result := r2, status := s, waited := b } w).exit ∧
    (poll_loop env child fuel i { result := r1, status := s, waited := b } w).world =
      (poll_loop env child fuel i { result := r2, status := s, waited := b } w).world ∧
    (poll_loop env child fuel i { result := r1, status := s, waited := b } w).locals.status =
      (poll_loop env child fuel i { result := r2, status := s, waited := b } w).locals.status ∧
    (poll_loop env child fuel i { result := r1, status := s, waited := b } w).locals.waited =
      (poll_loop env child fuel i { result := r2, status := s, waited := b } w).locals.waited ∧
    ((poll_loop env child fuel i { result := r1, status := s, waited := b } w).exit = .broke →
      (poll_loop env child fuel i { result := r1, status := s, waited := b } w).locals.result =
        (poll_loop env child fuel i { result := r2, status := s, waited := b } w).locals.result) := by
  induction fuel generalizing i s w with
  | zero => omega
  | succ fuel ih =>
    by_cases hw : (env.wait_nohang i).ret = 0
    · by_cases hs : (env.stat_host i).ret = 0
      · simp [poll_loop_arrive env child fuel i _ w hi hw hs]
      · by_cases hl : (env.stat_host i).errno = ENOENT ∧ i < ADB_INSTALL_TIMEOUT - 1
        · rw [poll_loop_step env child fuel i _ w ⟨hw, hs, hl.1⟩ hl.2,
            poll_loop_step env child fuel i _ w ⟨hw, hs, hl.1⟩ hl.2]
          exact ih (i + 1) _ _ (by omega) (by omega)
        · simp [poll_loop_give_up env child fuel i _ w hi hw hs hl]
    · simp [poll_loop_child_exit env child fuel i _ w hi hw]

/-! ## The driver switch and the service toggle -/

@[simp] theorem driver_write_trace (w : World) (node : Path) (fd : Int) (buf : List Char)
    (count : Nat) (ret : Int) (requested : Bool) :
    (driver_write w node fd buf count ret requested).trace =
      w.trace ++ [.write node fd buf count ret] := by
  unfold driver_write
  split_ifs <;> rfl

@[simp] theorem driver_write_adbd (w : World) (node : Path) (fd : Int) (buf : List Char)
    (count : Nat) (ret : Int) (requested : Bool) :
    (driver_write w node fd buf count ret requested).adbd = w.adbd := by
  unfold driver_write
  split_ifs <;> rfl

theorem set_usb_driver_write_trace (io : DriverIO) (enabled : Bool) (cn : List Char)
    (fd : Int) (cfg : Bool) (w : World) :
    (set_usb_driver_write io enabled cn fd cfg w).trace =
      w.trace ++ (set_usb_driver_write io enabled cn fd cfg (World.boot false false)).trace := by
  cases cfg <;> by_cases h1 : io.write_ret = -1 <;> by_cases h2 : io.write_ret = 0 <;>
    by_cases h3 : io.close_ret < 0 <;>
    simp [set_usb_driver_write, h1, h2, h3, World.boot]

theorem set_usb_driver_trace (io : DriverIO) (props : String → String) (enabled : Bool)
    (w : World) :
    (set_usb_driver io props enabled w).trace = w.trace ++ usb_events io props enabled := by
  simp only [usb_events, set_usb_driver]
  generalize char_array _ _ = cn
  by_cases h1 : io.sysfs_fd < 0 <;> by_cases h2 : io.configfs_fd < 0 <;>
    simp only [h1, h2, if_true, if_false]
  · simp [World.boot]
  · rw [set_usb_driver_write_trace, set_usb_driver_write_trace _ _ _ _ _ (emit _ _)]
    simp [World.boot]
  · rw [set_usb_driver_write_trace, set_usb_driver_write_trace _ _ _ _ _ (emit _ _)]
    simp [World.boot]
  · rw [set_usb_driver_write_trace, set_usb_driver_write_trace _ _ _ _ _ (emit _ _)]
    simp [World.boot]

theorem set_usb_driver_write_adbd (io : DriverIO) (enabled : Bool) (cn : List Char)
    (fd : Int) (cfg : Bool) (w : World) :
    (set_usb_driver_write io enabled cn fd cfg w).adbd = w.adbd := by
  cases cfg <;> by_cases h1 : io.write_ret = -1 <;> by_cases h2 : io.write_ret = 0 <;>
    by_cases h3 : io.close_ret < 0 <;>
    simp [set_usb_driver_write, h1, h2, h3]

theorem set_usb_driver_write_quiet (io : DriverIO) (enabled : Bool) (cn : List Char)
    (fd : Int) (cfg : Bool) :
    ∀ e ∈ (set_usb_driver_write io enabled cn fd cfg (World.boot false false)).trace,
      is_process_call e = false := by
  cases cfg <;> by_cases h1 : io.write_ret = -1 <;> by_cases h2 : io.write_ret = 0 <;>
    by_cases h3 : io.close_ret < 0 <;>
    simp [set_usb_driver_write, h1, h2, h3, World.boot, is_process_call]

theorem set_usb_driver_adbd (io : DriverIO) (props : String → String) (enabled : Bool)
    (w : World) : (set_usb_driver io props enabled w).adbd = w.adbd := by
  simp only [set_usb_driver]
  split_ifs <;> simp [set_usb_driver_write_adbd]

theorem usb_events_quiet (io : DriverIO) (props : String → String) (enabled : Bool) :
    ∀ e ∈ usb_events io props enabled, is_process_call e = false := by
  simp only [usb_events, set_usb_driver]
  generalize char_array _ _ = cn
  by_cases h1 : io.sysfs_fd < 0 <;> by_cases h2 : io.configfs_fd < 0 <;>
    simp only [h1, h2, if_true, if_false]
  · simp [World.boot, is_process_call]
  all_goals
    rw [set_usb_driver_write_trace, List.forall_mem_append]
    exact ⟨by simp [World.boot, is_process_call], set_usb_driver_write_quiet _ _ _ _ _⟩

@[simp] theorem property_set_trace (w : World) (key value : String) :
    (property_set w key value).trace = w.trace ++ [.property_set key value] := by
  unfold property_set
  split_ifs <;> rfl

@[simp] theorem property_set_driver (w : World) (key value : String) :
    (property_set w key value).driver = w.driver := by
  unfold property_set
  split_ifs <;> rfl

theorem property_set_stop (w : World) : (property_set w "ctl.stop" "adbd").adbd = false := by
  simp [property_set]

theorem maybe_restart_adbd_trace (io : DriverIO) (props : String → String) (w : World) :
    (maybe_restart_adbd io props w).trace = w.trace ++ restart_events io props := by
  simp only [restart_events, maybe_restart_adbd]
  split_ifs <;> simp [set_usb_driver_trace, World.boot]

theorem restart_events_quiet (io : DriverIO) (props : String → String) :
    ∀ e ∈ restart_events io props, is_process_call e = false := by
  simp only [restart_events, maybe_restart_adbd]
  split_ifs
  · simp only [property_set_trace, set_usb_driver_trace, List.forall_mem_append]
    exact ⟨⟨by simp [World.boot, is_process_call], usb_events_quiet _ _ _⟩,
      by simp [is_process_call]⟩
  · simp [World.boot, is_process_call]

theorem prepare_trace (env : Env) (w : World) :
    (prepare env w).trace = w.trace ++ prepare_events env := by
  simp [prepare_events, prepare, stop_adbd, set_usb_driver_trace, World.boot]

theorem prepare_events_quiet (env : Env) :
    ∀ e ∈ prepare_events env, is_process_call e = false := by
  simp only [prepare_events, prepare, stop_adbd, set_usb_driver_trace, property_set_trace,
    List.forall_mem_append]
  exact ⟨⟨⟨by simp [World.boot], by simp [is_process_call]⟩, usb_events_quiet _ _ _⟩,
    usb_events_quiet _ _ _⟩

/-! ## The end of the failure path -/

theorem classify_result (l : Locals) (w : World) :
    (classify l w).1.result = if WEXITSTATUS l.status = 3 then -2 else l.result := by
  unfold classify
  by_cases h3 : WEXITSTATUS l.status = 3
  · simp [h3]
  · simp only [h3, beq_iff_eq, if_false]
    split_ifs <;> rfl

theorem classify_status (l : Locals) (w : World) : (classify l w).1.status = l.status := by
  unfold classify
  split_ifs <;> rfl

theorem classify_trace (l : Locals) (w : World) :
    (classify l w).2.trace = w.trace ++ classify_events l := by
  unfold classify_events classify
  split_ifs <;> simp [World.boot]

theorem classify_events_quiet (l : Locals) :
    ∀ e ∈ classify_events l, is_process_call e = false := by
  unfold classify_events classify
  split_ifs <;> simp [World.boot, is_process_call]

theorem reap_child_status (env : Env) (child : Int) (l : Locals) (w : World) :
    (reap_child env child l w).1.status =
      if l.waited then l.status else env.wait_block.status := by
  unfold reap_child
  cases l.waited <;> simp

theorem reap_child_result (env : Env) (child : Int) (l : Locals) (w : World) :
    (reap_child env child l w).1.result = l.result := by
  unfold reap_child
  cases l.waited <;> simp

theorem reap_child_locals (env : Env) (child : Int) (l : Locals) (w : World) :
    (reap_child env child l w).1 =
      if l.waited then l else { l with status := env.wait_block.status } := by
  unfold reap_child
  cases l.waited <;> simp

theorem reap_child_trace (env : Env) (child : Int) (l : Locals) (w : World) :
    (reap_child env child l w).2.trace = w.trace ++ reap_events env child l := by
  unfold reap_events reap_child
  cases l.waited <;> simp [World.boot]

/-- The value returned on the failure path: -2 when the exit status field of
the wait status is 3, otherwise `result` as the loop left it. -/
theorem finish_ret (env : Env) (child : Int) (l : Locals) (w : World) :
    (finish env child l w).ret =
      some (if WEXITSTATUS (finish env child l w).status = 3 then -2 else l.result) := by
  simp [finish, classify_result, classify_status, reap_child_result]

theorem finish_status (env : Env) (child : Int) (l : Locals) (w : World) :
    (finish env child l w).status = if l.waited then l.status else env.wait_block.status := by
  simp [finish, classify_status, reap_child_status]

theorem finish_trace (env : Env) (child : Int) (l : Locals) (w : World) :
    (finish env child l w).world.trace = w.trace ++ finish_events env child l := by
  simp [finish_events, finish, maybe_restart_adbd_trace, set_usb_driver_trace, classify_trace,
    reap_child_trace, reap_child_locals, World.boot]

theorem finish_events_eq (env : Env) (child : Int) (l : Locals) :
    finish_events env child l =
      reap_events env child l ++
        classify_events (reap_child env child l (World.boot false false)).1 ++
        usb_events (env.usb 2) env.props false ++ restart_events (env.usb 3) env.props := by
  simp [finish_events, finish, maybe_restart_adbd_trace, set_usb_driver_trace, classify_trace,
    reap_child_trace, reap_child_locals, World.boot]

theorem prepare_adbd (env : Env) (w : World) : (prepare env w).adbd = false := by
  simp [prepare, stop_adbd, set_usb_driver_adbd, property_set_stop]

/-! ## The three ways through the poll loop -/

/-- The arrival sentinel is found in iteration `k`. -/
theorem poll_arrive_at (env : Env) (child : Int) (k : Nat) (l : Locals) (w : World)
    (hk : k < ADB_INSTALL_TIMEOUT) (hw : ∀ j, j < k → keeps_waiting env j)
    (h1 : (env.wait_nohang k).ret = 0) (h2 : (env.stat_host k).ret = 0) :
    poll_loop env child ADB_INSTALL_TIMEOUT 0 l w =
      { exit := .returned
        locals := { result := l.result, status := (env.wait_nohang k).status,
                    waited := l.waited }
        world := { w with trace := w.trace ++ waiting_events env child 0 k ++
          [.waitpid child WNOHANG (env.wait_nohang k).ret (env.wait_nohang k).status,
           .stat .FUSE_SIDELOAD_HOST_PATHNAME (env.stat_host k).ret] } } := by
  have e : ADB_INSTALL_TIMEOUT = (ADB_INSTALL_TIMEOUT - 1 - k + 1) + k := by omega
  conv_lhs => rw [e]
  rw [poll_loop_skip env child k _ 0 l w (fun j _ h => hw j (by omega)) (by omega)]
  simp only [Nat.zero_add]
  rw [poll_loop_arrive env child _ k _ _ hk h1 h2]
  simp

/-- The non-blocking `waitpid` of iteration `k` reports. -/
theorem poll_child_exit_at (env : Env) (child : Int) (k : Nat) (l : Locals) (w : World)
    (hk : k < ADB_INSTALL_TIMEOUT) (hw : ∀ j, j < k → keeps_waiting env j)
    (h1 : (env.wait_nohang k).ret ≠ 0) :
    poll_loop env child ADB_INSTALL_TIMEOUT 0 l w =
      { exit := .broke
        locals := { result := -1, status := (env.wait_nohang k).status, waited := true }
        world := { w with trace := w.trace ++ waiting_events env child 0 k ++
          [.waitpid child WNOHANG (env.wait_nohang k).ret (env.wait_nohang k).status] } } := by
  have e : ADB_INSTALL_TIMEOUT = (ADB_INSTALL_TIMEOUT - 1 - k + 1) + k := by omega
  conv_lhs => rw [e]
  rw [poll_loop_skip env child k _ 0 l w (fun j _ h => hw j (by omega)) (by omega)]
  simp only [Nat.zero_add]
  rw [poll_loop_child_exit env child _ k _ _ hk h1]

/-- Iteration `k` gives up and kills the child. -/
theorem poll_give_up_at (env : Env) (child : Int) (k : Nat) (l : Locals) (w : World)
    (hk : k < ADB_INSTALL_TIMEOUT) (hw : ∀ j, j < k → keeps_waiting env j)
    (h1 : (env.wait_nohang k).ret = 0) (h2 : (env.stat_host k).ret ≠ 0)
    (h3 : ¬ ((env.stat_host k).errno = ENOENT ∧ k < ADB_INSTALL_TIMEOUT - 1)) :
    poll_loop env child ADB_INSTALL_TIMEOUT 0 l w =
      { exit := .broke
        locals := { result := -1, status := (env.wait_nohang k).status, waited := l.waited }
        world := { w with trace := w.trace ++ waiting_events env child 0 k ++
          [.waitpid child WNOHANG (env.wait_nohang k).ret (env.wait_nohang k).status,
           .stat .FUSE_SIDELOAD_HOST_PATHNAME (env.stat_host k).ret,
           .printf .timed_out,
           .kill child SIGKILL] } } := by
  have e : ADB_INSTALL_TIMEOUT = (ADB_INSTALL_TIMEOUT - 1 - k + 1) + k := by omega
  conv_lhs => rw [e]
  rw [poll_loop_skip env child k _ 0 l w (fun j _ h => hw j (by omega)) (by omega)]
  simp only [Nat.zero_add]
  rw [poll_loop_give_up env child _ k _ _ hk h1 h2 h3]
  simp

/-! ## Runs of apply_from_adb -/

/-- In the process that called it, `apply_from_adb` polls and then either
hands off or takes the failure path. -/
theorem apply_from_adb_parent (IE : Int) (env : Env) (f : String) (cp : Int) (w : World)
    (hc : env.fork_ret ≠ 0) :
    apply_from_adb IE env f cp w =
      match (poll_loop env env.fork_ret ADB_INSTALL_TIMEOUT 0
          { result := IE, status := env.uninit_status, waited := false }
          (emit (prepare env w) (.fork env.fork_ret))).exit with
      | .returned =>
        { ret := some 0, child_pid := env.fork_ret
          status := (poll_loop env env.fork_ret ADB_INSTALL_TIMEOUT 0
            { result := IE, status := env.uninit_status, waited := false }
            (emit (prepare env w) (.fork env.fork_ret))).locals.status
          world := (poll_loop env env.fork_ret ADB_INSTALL_TIMEOUT 0
            { result := IE, status := env.uninit_status, waited := false }
            (emit (prepare env w) (.fork env.fork_ret))).world }
      | _ => finish env env.fork_ret
          (poll_loop env env.fork_ret ADB_INSTALL_TIMEOUT 0
            { result := IE, status := env.uninit_status, waited := false }
            (emit (prepare env w) (.fork env.fork_ret))).locals
          (poll_loop env env.fork_ret ADB_INSTALL_TIMEOUT 0
            { result := IE, status := env.uninit_status, waited := false }
            (emit (prepare env w) (.fork env.fork_ret))).world := by
  simp only [apply_from_adb, hc, if_false]

/-- A run that finds the arrival sentinel in iteration `k`. -/
theorem run_arrive (IE : Int) (env : Env) (f : String) (cp : Int) (w : World) (k : Nat)
    (hc : env.fork_ret ≠ 0)
    (hk : k < ADB_INSTALL_TIMEOUT) (hw : ∀ j, j < k → keeps_waiting env j)
    (h1 : (env.wait_nohang k).ret = 0) (h2 : (env.stat_host k).ret = 0) :
    apply_from_adb IE env f cp w =
      { ret := some 0, child_pid := env.fork_ret, status := (env.wait_nohang k).status
        world := { (prepare env w) with
          trace := (prepare env w).trace ++ [.fork env.fork_ret] ++
            waiting_events env env.fork_ret 0 k ++
            [.waitpid env.fork_ret WNOHANG (env.wait_nohang k).ret (env.wait_nohang k).status,
             .stat .FUSE_SIDELOAD_HOST_PATHNAME (env.stat_host k).ret] } } := by
  rw [apply_from_adb_parent IE env f cp w hc, poll_arrive_at env _ k _ _ hk hw h1 h2]
  simp [emit]

/-- A run whose non-blocking `waitpid` reports in iteration `k`. -/
theorem run_child_exit (IE : Int) (env : Env) (f : String) (cp : Int) (w : World) (k : Nat)
    (hc : env.fork_ret ≠ 0)
    (hk : k < ADB_INSTALL_TIMEOUT) (hw : ∀ j, j < k → keeps_waiting env j)
    (h1 : (env.wait_nohang k).ret ≠ 0) :
    apply_from_adb IE env f cp w =
      finish env env.fork_ret
        { result := -1, status := (env.wait_nohang k).status, waited := true }
        { (prepare env w) with
          trace := (prepare env w).trace ++ [.fork env.fork_ret] ++
            waiting_events env env.fork_ret 0 k ++
            [.waitpid env.fork_ret WNOHANG (env.wait_nohang k).ret
              (env.wait_nohang k).status] } := by
  rw [apply_from_adb_parent IE env f cp w hc, poll_child_exit_at env _ k _ _ hk hw h1]
  simp [emit]

/-- A run that gives up in iteration `k`. -/
theorem run_give_up (IE : Int) (env : Env) (f : String) (cp : Int) (w : World) (k : Nat)
    (hc : env.fork_ret ≠ 0)
    (hk : k < ADB_INSTALL_TIMEOUT) (hw : ∀ j, j < k → keeps_waiting env j)
    (h1 : (env.wait_nohang k).ret = 0) (h2 : (env.stat_host k).ret ≠ 0)
    (h3 : ¬ ((env.stat_host k).errno = ENOENT ∧ k < ADB_INSTALL_TIMEOUT - 1)) :
    apply_from_adb IE env f cp w =
      finish env env.fork_ret
        { result := -1, status := (env.wait_nohang k).status, waited := false }
        { (prepare env w) with
          trace := (prepare env w).trace ++ [.fork env.fork_ret] ++
            waiting_events env env.fork_ret 0 k ++
            [.waitpid env.fork_ret WNOHANG (env.wait_nohang k).ret (env.wait_nohang k).status,
             .stat .FUSE_SIDELOAD_HOST_PATHNAME (env.stat_host k).ret,
             .printf .timed_out,
             .kill env.fork_ret SIGKILL] } := by
  rw [apply_from_adb_parent IE env f cp w hc, poll_give_up_at env _ k _ _ hk hw h1 h2 h3]
  simp [emit]

/-! ## Counting calls -/

theorem countP_quiet (p : Event → Bool) (hp : ∀ e, p e = true → is_process_call e = true)
    (evs : List Event) (h : ∀ e ∈ evs, is_process_call e = false) : evs.countP p = 0 := by
  rw [List.countP_eq_zero]
  intro e he hpe
  have h1 := hp e hpe
  rw [h e he] at h1
  cases h1

theorem is_kill_process (e : Event) (h : is_kill e = true) : is_process_call e = true := by
  cases e <;> simp_all [is_kill, is_process_call]

theorem is_sigkill_process (c : Int) (e : Event) (h : is_sigkill_of c e = true) :
    is_process_call e = true := by
  cases e <;> simp_all [is_sigkill_of, is_process_call]

theorem is_sleep_process (e : Event) (h : is_sleep e = true) : is_process_call e = true := by
  cases e <;> simp_all [is_sleep, is_process_call]

theorem is_host_stat_process (e : Event) (h : is_host_stat e = true) :
    is_process_call e = true := by
  cases e <;> simp_all [is_host_stat, is_process_call]

theorem is_failed_host_stat_process (e : Event) (h : is_failed_host_stat e = true) :
    is_process_call e = true := by
  cases e <;> simp_all [is_failed_host_stat, is_process_call]

theorem is_exit_stat_process (e : Event) (h : is_exit_stat e = true) :
    is_process_call e = true := by
  cases e <;> simp_all [is_exit_stat, is_process_call]

theorem is_blocking_wait_process (e : Event) (h : is_blocking_wait e = true) :
    is_process_call e = true := by
  cases e <;> simp_all [is_blocking_wait, is_process_call]

theorem waiting_events_sleep (env : Env) (child : Int) (n i : Nat) :
    (waiting_events env child i n).countP is_sleep = n := by
  induction n generalizing i with
  | zero => rfl
  | succ n ih => simp [waiting_events, List.countP_cons, is_sleep, ih]

theorem waiting_events_host_stat (env : Env) (child : Int) (n i : Nat) :
    (waiting_events env child i n).countP is_host_stat = n := by
  induction n generalizing i with
  | zero => rfl
  | succ n ih => simp [waiting_events, List.countP_cons, is_host_stat, ih]

theorem waiting_events_failed_host_stat (env : Env) (child : Int) (n i : Nat)
    (h : ∀ j, i ≤ j → j < i + n → (env.stat_host j).ret ≠ 0) :
    (waiting_events env child i n).countP is_failed_host_stat = n := by
  induction n generalizing i with
  | zero => rfl
  | succ n ih =>
    have h0 := h i (le_refl i) (by omega)
    have h1 := ih (i + 1) (fun j h1 h2 => h j (by omega) (by omega))
    simp [waiting_events, List.countP_cons, is_failed_host_stat, h0, h1]

theorem waiting_events_kill (env : Env) (child : Int) (n i : Nat) :
    (waiting_events env child i n).countP is_kill = 0 := by
  induction n generalizing i with
  | zero => rfl
  | succ n ih => simp [waiting_events, List.countP_cons, is_kill, ih]

theorem waiting_events_sigkill (env : Env) (child c : Int) (n i : Nat) :
    (waiting_events env child i n).countP (is_sigkill_of c) = 0 := by
  induction n generalizing i with
  | zero => rfl
  | succ n ih => simp [waiting_events, List.countP_cons, is_sigkill_of, ih]

theorem waiting_events_exit_stat (env : Env) (child : Int) (n i : Nat) :
    (waiting_events env child i n).countP is_exit_stat = 0 := by
  induction n generalizing i with
  | zero => rfl
  | succ n ih => simp [waiting_events, List.countP_cons, is_exit_stat, ih]

theorem waiting_events_blocking_wait (env : Env) (child : Int) (n i : Nat) :
    (waiting_events env child i n).countP is_blocking_wait = 0 := by
  induction n generalizing i with
  | zero => rfl
  | succ n ih => simp [waiting_events, List.countP_cons, is_blocking_wait, ih]

theorem waiting_events_driver_or_service (env : Env) (child : Int) (n i : Nat) :
    (waiting_events env child i n).countP is_driver_or_service = 0 := by
  induction n generalizing i with
  | zero => rfl
  | succ n ih => simp [waiting_events, List.countP_cons, is_driver_or_service, ih]

theorem after_fork_append (A B : List Event) (r : Int)
    (h : ∀ e ∈ A, is_process_call e = false) : after_fork (A ++ .fork r :: B) = B := by
  induction A with
  | nil => rfl
  | cons e A ih =>
    have he : is_process_call e = false := h e (List.mem_cons_self e A)
    have hA := ih (fun x hx => h x (List.mem_cons_of_mem e hx))
    cases e <;> simp_all [after_fork, is_process_call]

/-- On the failure path only lines 165-175 act on processes or sentinels. -/
theorem finish_events_countP (p : Event → Bool)
    (hp : ∀ e, p e = true → is_process_call e = true) (env : Env) (child : Int) (l : Locals) :
    (finish_events env child l).countP p = (reap_events env child l).countP p := by
  rw [finish_events_eq]
  simp [List.countP_append, countP_quiet p hp _ (classify_events_quiet _),
    countP_quiet p hp _ (usb_events_quiet _ _ _), countP_quiet p hp _ (restart_events_quiet _ _)]

theorem reap_events_waited (env : Env) (child : Int) (l : Locals) (h : l.waited = true) :
    reap_events env child l = [] := by
  simp [reap_events, reap_child, h, World.boot]

theorem reap_events_not_waited (env : Env) (child : Int) (l : Locals) (h : l.waited = false) :
    reap_events env child l =
      [.stat .FUSE_SIDELOAD_HOST_EXIT_PATHNAME env.stat_exit.ret,
       .waitpid child 0 env.wait_block.ret env.wait_block.status] := by
  simp [reap_events, reap_child, h, World.boot]

/-! ## Claims -/

/-- C5. Arrival hand-off: for every iteration index k below 300, if the child
is reported running at the non-blocking check of iterations 0..k, the sentinel
stat fails with ENOENT in iterations 0..k-1 and succeeds in iteration k, then
`apply_from_adb` returns 0, sends no kill signal, performs no blocking wait,
does not stat the exit sentinel, and makes no driver or service call after the
fork. -/
theorem arrival_handoff (IE : Int) (env : Env) (f : String) (cp : Int) (d a : Bool) (k : Nat)
    (hc : env.fork_ret ≠ 0) (hk : k < ADB_INSTALL_TIMEOUT)
    (halive : ∀ j, j ≤ k → (env.wait_nohang j).ret = 0)
    (hmiss : ∀ j, j < k → (env.stat_host j).ret ≠ 0 ∧ (env.stat_host j).errno = ENOENT)
    (hfound : (env.stat_host k).ret = 0) :
    (apply_from_adb IE env f cp (World.boot d a)).ret = some 0 ∧
    (apply_from_adb IE env f cp (World.boot d a)).world.trace.countP is_kill = 0 ∧
    (apply_from_adb IE env f cp (World.boot d a)).world.trace.countP is_blocking_wait = 0 ∧
    (apply_from_adb IE env f cp (World.boot d a)).world.trace.countP is_exit_stat = 0 ∧
    (after_fork (apply_from_adb IE env f cp (World.boot d a)).world.trace).countP
      is_driver_or_service = 0 := by
  rw [run_arrive IE env f cp (World.boot d a) k hc hk
    (fun j hj => ⟨halive j (le_of_lt hj), hmiss j hj⟩) (halive k (le_refl k)) hfound]
  simp only [prepare_trace, World.boot, List.nil_append, List.append_assoc,
    List.singleton_append, List.cons_append]
  refine ⟨trivial, ?_, ?_, ?_, ?_⟩
  · simp [List.countP_append, List.countP_cons, is_kill, waiting_events_kill,
      countP_quiet _ is_kill_process _ (prepare_events_quiet env)]
  · simp [List.countP_append, List.countP_cons, is_blocking_wait, waiting_events_blocking_wait,
      countP_quiet _ is_blocking_wait_process _ (prepare_events_quiet env)]
  · simp [List.countP_append, List.countP_cons, is_exit_stat, waiting_events_exit_stat,
      countP_quiet _ is_exit_stat_process _ (prepare_events_quiet env)]
  · rw [after_fork_append _ _ _ (prepare_events_quiet env)]
    simp [List.countP_append, List.countP_cons, is_driver_or_service,
      waiting_events_driver_or_service]

/-- Witness of C5 at the scenario of the specification: the sentinel appears
in poll iteration 5. -/
theorem arrival_handoff_witness :
    (apply_from_adb 1 (env_arrival 5) package_file 0 (World.boot true true)).ret = some 0 ∧
    (apply_from_adb 1 (env_arrival 5) package_file 0 (World.boot true true)).world.trace.countP
      is_kill = 0 ∧
    (apply_from_adb 1 (env_arrival 5) package_file 0 (World.boot true true)).world.trace.countP
      is_blocking_wait = 0 ∧
    (apply_from_adb 1 (env_arrival 5) package_file 0 (World.boot true true)).world.trace.countP
      is_exit_stat = 0 ∧
    (after_fork
      (apply_from_adb 1 (env_arrival 5) package_file 0 (World.boot true true)).world.trace).countP
      is_driver_or_service = 0 :=
  arrival_handoff 1 (env_arrival 5) package_file 0 true true 5 (by decide) (by decide)
    (fun _ _ => rfl) (fun j hj => by simp [env_arrival, hj, ENOENT]) (by simp [env_arrival])

/-- C1, as the code has it. Timeout bound: when the child is reported running
at every non-blocking check and every stat of the arrival sentinel fails with
ENOENT, the poll loop makes exactly 300 sentinel checks, all failed, and
exactly 299 one-second sleeps, each iteration but the last being a waitpid, a
stat and a sleep and the last a waitpid, a stat and the kill; SIGKILL is sent
to the child exactly once and no other signal is sent; the value returned is
the one the status collected by the blocking wait decides: -2 when its exit
status field is 3, otherwise -1. -/
theorem timeout_bound (IE : Int) (env : Env) (f : String) (cp : Int) (d a : Bool)
    (hc : env.fork_ret ≠ 0)
    (halive : ∀ i, i < ADB_INSTALL_TIMEOUT → (env.wait_nohang i).ret = 0)
    (hmiss : ∀ i, i < ADB_INSTALL_TIMEOUT →
      (env.stat_host i).ret ≠ 0 ∧ (env.stat_host i).errno = ENOENT) :
    (apply_from_adb IE env f cp (World.boot d a)).world.trace.countP is_failed_host_stat = 300 ∧
    (apply_from_adb IE env f cp (World.boot d a)).world.trace.countP is_host_stat = 300 ∧
    (apply_from_adb IE env f cp (World.boot d a)).world.trace.countP is_sleep = 299 ∧
    (apply_from_adb IE env f cp (World.boot d a)).world.trace.countP
      (is_sigkill_of env.fork_ret) = 1 ∧
    (apply_from_adb IE env f cp (World.boot d a)).world.trace.countP is_kill = 1 ∧
    (∃ rest, rest.countP is_sleep = 0 ∧ rest.countP is_host_stat = 0 ∧
      after_fork (apply_from_adb IE env f cp (World.boot d a)).world.trace =
        waiting_events env env.fork_ret 0 299 ++
          [.waitpid env.fork_ret WNOHANG (env.wait_nohang 299).ret (env.wait_nohang 299).status,
           .stat .FUSE_SIDELOAD_HOST_PATHNAME (env.stat_host 299).ret,
           .printf .timed_out,
           .kill env.fork_ret SIGKILL] ++ rest) ∧
    (apply_from_adb IE env f cp (World.boot d a)).ret =
      some (status_outcome env.wait_block.status) := by
  have h299 : (299 : Nat) < ADB_INSTALL_TIMEOUT := by decide
  have hrun := run_give_up IE env f cp (World.boot d a) 299 hc h299
    (fun j hj => ⟨halive j (by omega), hmiss j (by omega)⟩) (halive 299 h299)
    (hmiss 299 h299).1 (by simp [ADB_INSTALL_TIMEOUT])
  have hs : (env.stat_host 299).ret ≠ 0 := (hmiss 299 h299).1
  have hf : ∀ j, 0 ≤ j → j < 0 + 299 → (env.stat_host j).ret ≠ 0 :=
    fun j _ hj => (hmiss j (by omega)).1
  rw [hrun]
  simp only [finish_trace, finish_ret, finish_status, prepare_trace, World.boot,
    List.nil_append, List.append_assoc, List.singleton_append, List.cons_append]
  refine ⟨?_, ?_, ?_, ?_, ?_, ?_, ?_⟩
  · simp [List.countP_append, List.countP_cons, is_failed_host_stat, hs,
      waiting_events_failed_host_stat env _ 299 0 hf,
      countP_quiet _ is_failed_host_stat_process _ (prepare_events_quiet env),
      finish_events_countP _ is_failed_host_stat_process, reap_events_not_waited]
  · simp [List.countP_append, List.countP_cons, is_host_stat, waiting_events_host_stat,
      countP_quiet _ is_host_stat_process _ (prepare_events_quiet env),
      finish_events_countP _ is_host_stat_process, reap_events_not_waited]
  · simp [List.countP_append, List.countP_cons, is_sleep, waiting_events_sleep,
      countP_quiet _ is_sleep_process _ (prepare_events_quiet env),
      finish_events_countP _ is_sleep_process, reap_events_not_waited]
  · simp [List.countP_append, List.countP_cons, is_sigkill_of, waiting_events_sigkill,
      countP_quiet _ (is_sigkill_process _) _ (prepare_events_quiet env),
      finish_events_countP _ (is_sigkill_process _), reap_events_not_waited]
  · simp [List.countP_append, List.countP_cons, is_kill, waiting_events_kill,
      countP_quiet _ is_kill_process _ (prepare_events_quiet env),
      finish_events_countP _ is_kill_process, reap_events_not_waited]
  · rw [after_fork_append _ _ _ (prepare_events_quiet env)]
    refine ⟨_, ?_, ?_, rfl⟩
    · simp [finish_events_countP _ is_sleep_process, reap_events_not_waited,
        List.countP_cons, is_sleep]
    · simp [finish_events_countP _ is_host_stat_process, reap_events_not_waited,
        List.countP_cons, is_host_stat]
  · simp [status_outcome]

/-- Witness of C1 (as the code has it): the host never connects and the
blocking wait finds the child killed by SIGKILL (status 9). -/
theorem timeout_bound_witness :
    (apply_from_adb 1 (env_timeout 9) package_file 0 (World.boot true true)).world.trace.countP
      is_failed_host_stat = 300 ∧
    (apply_from_adb 1 (env_timeout 9) package_file 0 (World.boot true true)).world.trace.countP
      is_sleep = 299 ∧
    (apply_from_adb 1 (env_timeout 9) package_file 0 (World.boot true true)).world.trace.countP
      (is_sigkill_of 100) = 1 ∧
    (apply_from_adb 1 (env_timeout 9) package_file 0 (World.boot true true)).ret =
      some (status_outcome 9) ∧
    status_outcome 9 = -1 :=
  have h := timeout_bound 1 (env_timeout 9) package_file 0 true true (by decide)
    (fun _ _ => rfl) (fun _ _ => ⟨by simp [env_timeout], rfl⟩)
  ⟨h.1, h.2.2.1, h.2.2.2.1, h.2.2.2.2.2.2, by decide⟩

/-- Counterexample to C1 as stated: the child is reported running at all 300
non-blocking checks and every sentinel stat fails with ENOENT, yet the value
returned is -2, not -1, because the blocking wait collects a normal exit with
code 3 (status word 768). -/
theorem timeout_returns_minus_two :
    (∀ i, ((env_timeout 768).wait_nohang i).ret = 0) ∧
    (∀ i, ((env_timeout 768).stat_host i).ret ≠ 0 ∧
      ((env_timeout 768).stat_host i).errno = ENOENT) ∧
    WIFEXITED 768 = true ∧ WEXITSTATUS 768 = 3 ∧
    (apply_from_adb 1 (env_timeout 768) package_file 0 (World.boot true true)).ret =
      some (-2) := by
  refine ⟨fun _ => rfl, fun _ => ⟨by simp [env_timeout], rfl⟩, by decide, by decide, ?_⟩
  rw [run_give_up 1 (env_timeout 768) package_file 0 (World.boot true true) 299 (by decide)
    (by decide) (fun _ _ => ⟨rfl, by simp [env_timeout], rfl⟩) rfl (by simp [env_timeout])
    (by simp [ADB_INSTALL_TIMEOUT])]
  rw [finish_ret, finish_status]
  decide

/-- What holds on the child-exit path: no stat of the exit sentinel, no
blocking wait, no kill, and the value the wait status decides. -/
theorem child_exit_facts (IE : Int) (env : Env) (f : String) (cp : Int) (d a : Bool) (k : Nat)
    (hc : env.fork_ret ≠ 0) (hk : k < ADB_INSTALL_TIMEOUT)
    (hw : ∀ j, j < k → keeps_waiting env j) (hx : (env.wait_nohang k).ret ≠ 0) :
    (apply_from_adb IE env f cp (World.boot d a)).world.trace.countP is_exit_stat = 0 ∧
    (apply_from_adb IE env f cp (World.boot d a)).world.trace.countP is_blocking_wait = 0 ∧
    (apply_from_adb IE env f cp (World.boot d a)).world.trace.countP is_kill = 0 ∧
    (apply_from_adb IE env f cp (World.boot d a)).status = (env.wait_nohang k).status ∧
    (apply_from_adb IE env f cp (World.boot d a)).ret =
      some (status_outcome (env.wait_nohang k).status) := by
  rw [run_child_exit IE env f cp (World.boot d a) k hc hk hw hx]
  simp only [finish_trace, finish_ret, finish_status, prepare_trace, World.boot,
    List.nil_append, List.append_assoc, List.singleton_append, List.cons_append]
  refine ⟨?_, ?_, ?_, ?_, ?_⟩
  · simp [List.countP_append, List.countP_cons, is_exit_stat, waiting_events_exit_stat,
      countP_quiet _ is_exit_stat_process _ (prepare_events_quiet env),
      finish_events_countP _ is_exit_stat_process, reap_events_waited]
  · simp [List.countP_append, List.countP_cons, is_blocking_wait, waiting_events_blocking_wait,
      countP_quiet _ is_blocking_wait_process _ (prepare_events_quiet env),
      finish_events_countP _ is_blocking_wait_process, reap_events_waited, WNOHANG]
  · simp [List.countP_append, List.countP_cons, is_kill, waiting_events_kill,
      countP_quiet _ is_kill_process _ (prepare_events_quiet env),
      finish_events_countP _ is_kill_process, reap_events_waited]
  · simp
  · simp [status_outcome]

/-- C4, as the code has it. Child-exit path: when the non-blocking waitpid of
poll iteration k reports (returns non-zero) before the arrival sentinel was
seen, the exit sentinel is not stat-ed at all and no blocking wait is made,
that non-blocking waitpid being the call that collects the wait status; the
value returned is a function of that wait status only (-2 when its exit status
field is 3, otherwise -1), whatever the iteration k. -/
theorem child_exit_path (IE : Int) (env : Env) (f : String) (cp : Int) (d a : Bool) (k : Nat)
    (hc : env.fork_ret ≠ 0) (hk : k < ADB_INSTALL_TIMEOUT)
    (hw : ∀ j, j < k → keeps_waiting env j) (hx : (env.wait_nohang k).ret ≠ 0) :
    (apply_from_adb IE env f cp (World.boot d a)).world.trace.countP is_exit_stat = 0 ∧
    (apply_from_adb IE env f cp (World.boot d a)).world.trace.countP is_blocking_wait = 0 ∧
    (apply_from_adb IE env f cp (World.boot d a)).status = (env.wait_nohang k).status ∧
    (apply_from_adb IE env f cp (World.boot d a)).ret =
      some (status_outcome (env.wait_nohang k).status) :=
  have h := child_exit_facts IE env f cp d a k hc hk hw hx
  ⟨h.1, h.2.1, h.2.2.2.1, h.2.2.2.2⟩

/-- Witness of C4 (as the code has it): the child exits with code 1 and is
found so by the check of iteration 10. -/
theorem child_exit_path_witness :
    (apply_from_adb 1 (env_child_exit no_props 10 256) package_file 0
      (World.boot true true)).world.trace.countP is_exit_stat = 0 ∧
    (apply_from_adb 1 (env_child_exit no_props 10 256) package_file 0
      (World.boot true true)).world.trace.countP is_blocking_wait = 0 ∧
    (apply_from_adb 1 (env_child_exit no_props 10 256) package_file 0
      (World.boot true true)).status = 256 ∧
    (apply_from_adb 1 (env_child_exit no_props 10 256) package_file 0
      (World.boot true true)).ret = some (status_outcome 256) :=
  child_exit_path 1 (env_child_exit no_props 10 256) package_file 0 true true 10 (by decide)
    (by decide)
    (fun j hj => by simp [keeps_waiting, env_child_exit, hj, ENOENT]) (by decide)

/-- Counterexample to C4 as stated: the non-blocking waitpid of iteration 0
reports the child (pid 100) exited with code 1 and so reaps it, and the run
never stats the exit sentinel, before or after. -/
theorem child_exit_without_exit_stat :
    ((env_child_exit no_props 0 256).wait_nohang 0).ret = 100 ∧
    (apply_from_adb 1 (env_child_exit no_props 0 256) package_file 0
      (World.boot true true)).ret = some (-1) ∧
    (apply_from_adb 1 (env_child_exit no_props 0 256) package_file 0
      (World.boot true true)).world.trace.countP is_exit_stat = 0 := by
  have h := child_exit_facts 1 (env_child_exit no_props 0 256) package_file 0 true true 0
    (by decide) (by decide) (fun j hj => absurd hj (Nat.not_lt_zero j)) (by decide)
  exact ⟨rfl, by rw [h.2.2.2.2]; decide, h.1⟩

/-- Every run of the calling process either hands off after a successful
sentinel check made while the child was reported running, or takes the failure
path with `result` at -1 and the service stopped. -/
theorem run_cases (IE : Int) (env : Env) (f : String) (cp : Int) (w : World)
    (hc : env.fork_ret ≠ 0) :
    ((apply_from_adb IE env f cp w).ret = some 0 ∧
      (apply_from_adb IE env f cp w).child_pid = env.fork_ret ∧
      ∃ k, k < ADB_INSTALL_TIMEOUT ∧ (env.wait_nohang k).ret = 0 ∧
        (env.stat_host k).ret = 0) ∨
    (∃ l w1, apply_from_adb IE env f cp w = finish env env.fork_ret l w1 ∧
      l.result = -1 ∧ w1.adbd = false ∧
      ((l.waited = true ∧ ∃ k, k < ADB_INSTALL_TIMEOUT ∧ (env.wait_nohang k).ret ≠ 0 ∧
          l.status = (env.wait_nohang k).status) ∨
        l.waited = false)) := by
  rw [apply_from_adb_parent IE env f cp w hc]
  obtain ⟨_, ha, h⟩ := poll_loop_cases env env.fork_ret ADB_INSTALL_TIMEOUT 0
    { result := IE, status := env.uninit_status, waited := false }
    (emit (prepare env w) (.fork env.fork_ret)) (by omega) (by decide)
  rcases h with ⟨he, hk⟩ | ⟨he, hr, hw⟩
  · left
    simp only [he]
    exact ⟨trivial, trivial, hk⟩
  · right
    simp only [he]
    refine ⟨_, _, rfl, hr, ?_, hw⟩
    rw [ha, emit_adbd, prepare_adbd]

/-- The failure path returns -1 or -2, never 0. -/
theorem finish_ret_cases (env : Env) (child : Int) (l : Locals) (w : World)
    (hl : l.result = -1) :
    (finish env child l w).ret = some (status_outcome (finish env child l w).status) ∧
    ((finish env child l w).ret = some (-1) ∨ (finish env child l w).ret = some (-2)) := by
  rw [finish_ret, hl]
  unfold status_outcome
  split_ifs <;> simp

/-- C2. Exit status 3 always yields the protocol-version error: for every run
of the calling process that does not return through the arrival hand-off, if
the wait status the run collected is a normal exit with exit code 3, then the
function returns -2; that status is the one left by the non-blocking check of
some iteration whose waitpid reported, or the one left by the blocking wait
after the loop, and the iteration at which the loop ended plays no part. -/
theorem exit_status_three (IE : Int) (env : Env) (f : String) (cp : Int) (w : World)
    (hc : env.fork_ret ≠ 0) (hna : (apply_from_adb IE env f cp w).ret ≠ some 0)
    (_he : WIFEXITED (apply_from_adb IE env f cp w).status = true)
    (h3 : WEXITSTATUS (apply_from_adb IE env f cp w).status = 3) :
    (apply_from_adb IE env f cp w).ret = some (-2) ∧
    ((∃ k, k < ADB_INSTALL_TIMEOUT ∧ (env.wait_nohang k).ret ≠ 0 ∧
        (apply_from_adb IE env f cp w).status = (env.wait_nohang k).status) ∨
      (apply_from_adb IE env f cp w).status = env.wait_block.status) := by
  rcases run_cases IE env f cp w hc with ⟨h0, _⟩ | ⟨l, w1, hrun, hl, _, hw⟩
  · exact absurd h0 hna
  · rw [hrun] at h3 ⊢
    refine ⟨?_, ?_⟩
    · rw [(finish_ret_cases env _ l w1 hl).1]
      simp [status_outcome, h3]
    · rw [finish_status]
      rcases hw with ⟨hwt, k, hk, hx, hs⟩ | hwf
      · left
        exact ⟨k, hk, hx, by simp [hwt, hs]⟩
      · right
        simp [hwf]

/-- Witness of C2 at the scenario of the specification: the child exits with
code 3 (status word 768) and is found so by the check of iteration 10. -/
theorem exit_status_three_witness :
    (apply_from_adb 1 (env_child_exit no_props 10 768) package_file 0
      (World.boot true true)).ret = some (-2) ∧
    ((∃ k, k < ADB_INSTALL_TIMEOUT ∧ ((env_child_exit no_props 10 768).wait_nohang k).ret ≠ 0 ∧
        (apply_from_adb 1 (env_child_exit no_props 10 768) package_file 0
          (World.boot true true)).status = ((env_child_exit no_props 10 768).wait_nohang k).status) ∨
      (apply_from_adb 1 (env_child_exit no_props 10 768) package_file 0
        (World.boot true true)).status = (env_child_exit no_props 10 768).wait_block.status) :=
  have h := child_exit_facts 1 (env_child_exit no_props 10 768) package_file 0 true true 10
    (by decide) (by decide)
    (fun j hj => by simp [keeps_waiting, env_child_exit, hj, ENOENT]) (by decide)
  exit_status_three 1 (env_child_exit no_props 10 768) package_file 0 (World.boot true true)
    (by decide) (by rw [h.2.2.2.2]; decide) (by rw [h.2.2.2.1]; decide)
    (by rw [h.2.2.2.1]; decide)

/-- The value returned does not depend on the constant `INSTALL_ERROR`. -/
theorem ret_independent (IE IE2 : Int) (env : Env) (f : String) (cp : Int) (w : World) :
    (apply_from_adb IE env f cp w).ret = (apply_from_adb IE2 env f cp w).ret := by
  by_cases hc : env.fork_ret = 0
  · simp [apply_from_adb, hc]
  · rw [apply_from_adb_parent IE env f cp w hc, apply_from_adb_parent IE2 env f cp w hc]
    obtain ⟨he, _, hs, hw, hr⟩ := poll_loop_result_irrelevant env env.fork_ret
      ADB_INSTALL_TIMEOUT 0 IE IE2 env.uninit_status false
      (emit (prepare env w) (.fork env.fork_ret)) (by omega) (by decide)
    obtain ⟨_, _, h⟩ := poll_loop_cases env env.fork_ret ADB_INSTALL_TIMEOUT 0
      { result := IE, status := env.uninit_status, waited := false }
      (emit (prepare env w) (.fork env.fork_ret)) (by omega) (by decide)
    rcases h with ⟨h1, _⟩ | ⟨h1, _⟩
    · have h2 := he ▸ h1
      simp only [h1, h2]
    · have h2 := he ▸ h1
      simp only [h1, h2]
      rw [finish_ret, finish_ret, finish_status, finish_status, hs, hw, hr h1]

/-- C7. Outcome range: whatever the operating system answers, the calling
process returns, and the value is 0, -1 or -2; it is 0 only when a stat of the
arrival sentinel succeeded in an iteration whose non-blocking check reported
the child running; the poll loop is never left through its loop condition, so
the initial value `INSTALL_ERROR` of `result` is never what is returned (the
value returned is the same for every value of that constant); and a child
found to have exited normally with status 0 before arrival yields -1. -/
theorem outcome_range (IE : Int) (env : Env) (f : String) (cp : Int) (w : World)
    (hc : env.fork_ret ≠ 0) :
    ∃ r, (apply_from_adb IE env f cp w).ret = some r ∧
      (r = 0 ∨ r = -1 ∨ r = -2) ∧
      (r = 0 → ∃ k, k < ADB_INSTALL_TIMEOUT ∧ (env.wait_nohang k).ret = 0 ∧
        (env.stat_host k).ret = 0) ∧
      (poll_loop env env.fork_ret ADB_INSTALL_TIMEOUT 0
        { result := IE, status := env.uninit_status, waited := false }
        (emit (prepare env w) (.fork env.fork_ret))).exit ≠ .exhausted ∧
      (∀ IE2, (apply_from_adb IE2 env f cp w).ret = some r) ∧
      (∀ k, k < ADB_INSTALL_TIMEOUT → (∀ j, j < k → keeps_waiting env j) →
        (env.wait_nohang k).ret ≠ 0 → WIFEXITED (env.wait_nohang k).status = true →
        WEXITSTATUS (env.wait_nohang k).status = 0 → r = -1) := by
  obtain ⟨_, _, hcase⟩ := poll_loop_cases env env.fork_ret ADB_INSTALL_TIMEOUT 0
    { result := IE, status := env.uninit_status, waited := false }
    (emit (prepare env w) (.fork env.fork_ret)) (by omega) (by decide)
  have hex : (poll_loop env env.fork_ret ADB_INSTALL_TIMEOUT 0
      { result := IE, status := env.uninit_status, waited := false }
      (emit (prepare env w) (.fork env.fork_ret))).exit ≠ .exhausted := by
    rcases hcase with ⟨h1, _⟩ | ⟨h1, _⟩ <;> simp [h1]
  have hlast : ∀ r, (apply_from_adb IE env f cp w).ret = some r →
      ∀ k, k < ADB_INSTALL_TIMEOUT → (∀ j, j < k → keeps_waiting env j) →
        (env.wait_nohang k).ret ≠ 0 → WIFEXITED (env.wait_nohang k).status = true →
        WEXITSTATUS (env.wait_nohang k).status = 0 → r = -1 := by
    intro r hr k hk hw hx _ h0
    rw [run_child_exit IE env f cp w k hc hk hw hx, finish_ret, finish_status] at hr
    simp [h0] at hr
    exact hr.symm
  rcases run_cases IE env f cp w hc with ⟨h0, _, hk⟩ | ⟨l, w1, hrun, hl, _, _⟩
  · exact ⟨0, h0, Or.inl rfl, fun _ => hk, hex,
      fun IE2 => (ret_independent IE2 IE env f cp w).trans h0, hlast 0 h0⟩
  · rcases (finish_ret_cases env env.fork_ret l w1 hl).2 with h1 | h2
    · have hr : (apply_from_adb IE env f cp w).ret = some (-1) := by rw [hrun]; exact h1
      exact ⟨-1, hr, Or.inr (Or.inl rfl), fun h => absurd h (by decide), hex,
        fun IE2 => (ret_independent IE2 IE env f cp w).trans hr, hlast (-1) hr⟩
    · have hr : (apply_from_adb IE env f cp w).ret = some (-2) := by rw [hrun]; exact h2
      exact ⟨-2, hr, Or.inr (Or.inr rfl), fun h => absurd h (by decide), hex,
        fun IE2 => (ret_independent IE2 IE env f cp w).trans hr, hlast (-2) hr⟩

/-- Witness of C7: the child exits normally with status 0 at once, before any
arrival; the value returned is -1. -/
theorem outcome_range_witness :
    ∃ r, (apply_from_adb 1 (env_child_exit no_props 0 0) package_file 0
        (World.boot true true)).ret = some r ∧
      (r = 0 ∨ r = -1 ∨ r = -2) ∧
      (r = 0 → ∃ k, k < ADB_INSTALL_TIMEOUT ∧
        ((env_child_exit no_props 0 0).wait_nohang k).ret = 0 ∧
        ((env_child_exit no_props 0 0).stat_host k).ret = 0) ∧
      (poll_loop (env_child_exit no_props 0 0) (env_child_exit no_props 0 0).fork_ret
        ADB_INSTALL_TIMEOUT 0
        { result := 1, status := (env_child_exit no_props 0 0).uninit_status, waited := false }
        (emit (prepare (env_child_exit no_props 0 0) (World.boot true true))
          (.fork (env_child_exit no_props 0 0).fork_ret))).exit ≠ .exhausted ∧
      (∀ IE2, (apply_from_adb IE2 (env_child_exit no_props 0 0) package_file 0
        (World.boot true true)).ret = some r) ∧
      (∀ k, k < ADB_INSTALL_TIMEOUT →
        (∀ j, j < k → keeps_waiting (env_child_exit no_props 0 0) j) →
        ((env_child_exit no_props 0 0).wait_nohang k).ret ≠ 0 →
        WIFEXITED ((env_child_exit no_props 0 0).wait_nohang k).status = true →
        WEXITSTATUS ((env_child_exit no_props 0 0).wait_nohang k).status = 0 → r = -1) :=
  outcome_range 1 (env_child_exit no_props 0 0) package_file 0 (World.boot true true)
    (by decide)

/-- C10. Child handle: the calling process returns, and when it returns 0 the
value left in `*child_pid` is the value `fork` returned, when it returns any
other value `*child_pid` is 0; so `*child_pid` is non-zero on return if and
only if the outcome is the arrival hand-off. -/
theorem child_pid_out (IE : Int) (env : Env) (f : String) (cp : Int) (w : World)
    (hc : env.fork_ret ≠ 0) :
    ∃ r, (apply_from_adb IE env f cp w).ret = some r ∧
      (r = 0 → (apply_from_adb IE env f cp w).child_pid = env.fork_ret) ∧
      (r ≠ 0 → (apply_from_adb IE env f cp w).child_pid = 0) ∧
      ((apply_from_adb IE env f cp w).child_pid ≠ 0 ↔ r = 0) := by
  rcases run_cases IE env f cp w hc with ⟨h0, hp, _⟩ | ⟨l, w1, hrun, hl, _, _⟩
  · exact ⟨0, h0, fun _ => hp, fun h => absurd rfl h, by rw [hp]; exact ⟨fun _ => rfl, fun _ => hc⟩⟩
  · have hp : (apply_from_adb IE env f cp w).child_pid = 0 := by rw [hrun]; rfl
    rcases (finish_ret_cases env env.fork_ret l w1 hl).2 with h1 | h2
    · have hr : (apply_from_adb IE env f cp w).ret = some (-1) := by rw [hrun]; exact h1
      exact ⟨-1, hr, fun h => absurd h (by decide), fun _ => hp,
        by rw [hp]; exact ⟨fun h => absurd rfl h, fun h => absurd h (by decide)⟩⟩
    · have hr : (apply_from_adb IE env f cp w).ret = some (-2) := by rw [hrun]; exact h2
      exact ⟨-2, hr, fun h => absurd h (by decide), fun _ => hp,
        by rw [hp]; exact ⟨fun h => absurd rfl h, fun h => absurd h (by decide)⟩⟩

/-- Witness of C10: the sentinel appears in iteration 5 and the child's pid,
100, is left in `*child_pid`. -/
theorem child_pid_out_witness :
    ∃ r, (apply_from_adb 1 (env_arrival 5) package_file 0 (World.boot true true)).ret = some r ∧
      (r = 0 → (apply_from_adb 1 (env_arrival 5) package_file 0
        (World.boot true true)).child_pid = (env_arrival 5).fork_ret) ∧
      (r ≠ 0 → (apply_from_adb 1 (env_arrival 5) package_file 0
        (World.boot true true)).child_pid = 0) ∧
      ((apply_from_adb 1 (env_arrival 5) package_file 0
        (World.boot true true)).child_pid ≠ 0 ↔ r = 0) :=
  child_pid_out 1 (env_arrival 5) package_file 0 (World.boot true true) (by decide)

/-- What a run does when the first non-blocking `waitpid` reports: the calls
after the fork are that `waitpid`, the `printf` of the classification if any,
the driver disable and the conditional restart. -/
theorem first_check_reports (IE : Int) (env : Env) (f : String) (cp : Int) (d a : Bool)
    (hc : env.fork_ret ≠ 0) (hx : (env.wait_nohang 0).ret ≠ 0) :
    (apply_from_adb IE env f cp (World.boot d a)).ret =
      some (status_outcome (env.wait_nohang 0).status) ∧
    (apply_from_adb IE env f cp (World.boot d a)).child_pid = 0 ∧
    after_fork (apply_from_adb IE env f cp (World.boot d a)).world.trace =
      .waitpid env.fork_ret WNOHANG (env.wait_nohang 0).ret (env.wait_nohang 0).status ::
        (classify_events { result := -1, status := (env.wait_nohang 0).status, waited := true } ++
          usb_events (env.usb 2) env.props false ++ restart_events (env.usb 3) env.props) := by
  have h := child_exit_facts IE env f cp d a 0 hc (by decide)
    (fun j hj => absurd hj (Nat.not_lt_zero j)) hx
  refine ⟨h.2.2.2.2, ?_, ?_⟩
  · rw [run_child_exit IE env f cp (World.boot d a) 0 hc (by decide)
      (fun j hj => absurd hj (Nat.not_lt_zero j)) hx]
    rfl
  · rw [run_child_exit IE env f cp (World.boot d a) 0 hc (by decide)
      (fun j hj => absurd hj (Nat.not_lt_zero j)) hx]
    simp only [finish_trace, prepare_trace, World.boot, List.nil_append, List.append_assoc,
      List.singleton_append, List.cons_append, waiting_events]
    rw [after_fork_append _ _ _ (prepare_events_quiet env), finish_events_eq,
      reap_events_waited _ _ _ rfl]
    simp [reap_child_locals]

/-- What a run that gives up in iteration `k` does: `k` sleeps, one
`kill(child, SIGKILL)` and no other signal, and the value the status left by
the blocking wait decides. -/
theorem give_up_facts (IE : Int) (env : Env) (f : String) (cp : Int) (d a : Bool) (k : Nat)
    (hc : env.fork_ret ≠ 0) (hk : k < ADB_INSTALL_TIMEOUT)
    (hw : ∀ j, j < k → keeps_waiting env j)
    (h1 : (env.wait_nohang k).ret = 0) (h2 : (env.stat_host k).ret ≠ 0)
    (h3 : ¬ ((env.stat_host k).errno = ENOENT ∧ k < ADB_INSTALL_TIMEOUT - 1)) :
    (apply_from_adb IE env f cp (World.boot d a)).world.trace.countP is_sleep = k ∧
    (apply_from_adb IE env f cp (World.boot d a)).world.trace.countP
      (is_sigkill_of env.fork_ret) = 1 ∧
    (apply_from_adb IE env f cp (World.boot d a)).world.trace.countP is_kill = 1 ∧
    (apply_from_adb IE env f cp (World.boot d a)).ret =
      some (status_outcome env.wait_block.status) := by
  rw [run_give_up IE env f cp (World.boot d a) k hc hk hw h1 h2 h3]
  simp only [finish_trace, finish_ret, finish_status, prepare_trace, World.boot,
    List.nil_append, List.append_assoc, List.singleton_append, List.cons_append]
  refine ⟨?_, ?_, ?_, ?_⟩
  · simp [List.countP_append, List.countP_cons, is_sleep, waiting_events_sleep,
      countP_quiet _ is_sleep_process _ (prepare_events_quiet env),
      finish_events_countP _ is_sleep_process, reap_events_not_waited]
  · simp [List.countP_append, List.countP_cons, is_sigkill_of, waiting_events_sigkill,
      countP_quiet _ (is_sigkill_process _) _ (prepare_events_quiet env),
      finish_events_countP _ (is_sigkill_process _), reap_events_not_waited]
  · simp [List.countP_append, List.countP_cons, is_kill, waiting_events_kill,
      countP_quiet _ is_kill_process _ (prepare_events_quiet env),
      finish_events_countP _ is_kill_process, reap_events_not_waited]
  · simp [status_outcome]

/-- C6, at the input where the code departs from it: fork returns -1. The
function does not return at once. With no child to wait for (`waitpid(-1)`
returns -1) the calls after the failed fork are the waitpid of poll iteration
0 and then the driver disable on the legacy node (open, write of the byte 0,
close) and the read of ro.debuggable, and the value returned is read off a
status word that no call has set: -1 when it holds 0, but -2 when it holds
768. With other children running (`waitpid(-1)` returns 0) and the sentinel
missing, the run sleeps 299 times and then calls `kill(-1, SIGKILL)`. -/
theorem fork_failure_runs_on :
    (env_fork_fails 0).fork_ret = -1 ∧
    (apply_from_adb 1 (env_fork_fails 0) package_file 0 (World.boot true true)).ret =
      some (-1) ∧
    after_fork (apply_from_adb 1 (env_fork_fails 0) package_file 0
      (World.boot true true)).world.trace =
      [.waitpid (-1) WNOHANG (-1) 0,
       .open_node .SYSFS_USB_ENABLE_NODE 3,
       .property_get "sys.usb.controller",
       .write .SYSFS_USB_ENABLE_NODE 3 ['0', NUL] 1 1,
       .close 3 0,
       .property_get "ro.debuggable"] ∧
    (env_fork_fails 768).fork_ret = -1 ∧
    (apply_from_adb 1 (env_fork_fails 768) package_file 0 (World.boot true true)).ret =
      some (-2) ∧
    env_fork_fails_polling.fork_ret = -1 ∧
    (apply_from_adb 1 env_fork_fails_polling package_file 0
      (World.boot true true)).world.trace.countP is_sleep = 299 ∧
    (apply_from_adb 1 env_fork_fails_polling package_file 0
      (World.boot true true)).world.trace.countP (is_sigkill_of (-1)) = 1 ∧
    (apply_from_adb 1 env_fork_fails_polling package_file 0 (World.boot true true)).ret =
      some (-1) := by
  have h := first_check_reports 1 (env_fork_fails 0) package_file 0 true true (by decide)
    (by decide)
  have h768 := first_check_reports 1 (env_fork_fails 768) package_file 0 true true (by decide)
    (by decide)
  have hp := give_up_facts 1 env_fork_fails_polling package_file 0 true true 299 (by decide)
    (by decide) (fun _ _ => ⟨rfl, by simp [env_fork_fails_polling], rfl⟩) rfl
    (by simp [env_fork_fails_polling]) (by simp [ADB_INSTALL_TIMEOUT])
  refine ⟨rfl, by rw [h.1]; decide, ?_, rfl, by rw [h768.1]; decide, rfl, hp.1, hp.2.1,
    by rw [hp.2.2.2]; decide⟩
  rw [h.2.2]
  decide

/-- C8, at the input where the code departs from it: with only the configfs
node open, `set_usb_driver(false)` asks `write` for `PROPERTY_VALUE_MAX` = 92
bytes starting at the 5-byte literal "none" (four letters and the NUL), not
for exactly the token "none"; the full trace of the call is given. -/
theorem configfs_disable_write :
    (set_usb_driver configfs_ok no_props false (World.boot true false)).trace =
      [.open_node .SYSFS_USB_ENABLE_NODE (-1),
       .property_get "sys.usb.controller",
       .printf .failed_open_sysfs,
       .open_node .CONFIGFS_USB_ENABLE_NODE 3,
       .write .CONFIGFS_USB_ENABLE_NODE 3 ['n', 'o', 'n', 'e', NUL] 92 92,
       .printf .failed_set_driver_control,
       .close 3 0] ∧
    write_requests (set_usb_driver configfs_ok no_props false (World.boot true false)).trace =
      [(.CONFIGFS_USB_ENABLE_NODE, cstr "none", PROPERTY_VALUE_MAX)] ∧
    (cstr "none").length = 5 ∧ PROPERTY_VALUE_MAX = 92 := by
  decide

/-- C9, at the input where the code departs from it: with only the configfs
node open, a write that succeeds (it returns 92, the count asked for, and the
driver takes the requested state) is still followed by the failed-to-set
diagnostic, while a write that returns 0 is not; the descriptor is closed
once. On the legacy node the same successful call prints no diagnostic. -/
theorem configfs_success_reports_failure :
    configfs_ok.write_ret = 92 ∧
    (set_usb_driver configfs_ok no_props true (World.boot false false)).driver = true ∧
    (set_usb_driver configfs_ok no_props true (World.boot false false)).trace.countP
      is_set_failure = 1 ∧
    (set_usb_driver { configfs_ok with write_ret := 0 } no_props true
      (World.boot false false)).trace.countP is_set_failure = 0 ∧
    (set_usb_driver configfs_ok no_props true (World.boot false false)).trace.countP
      is_close = 1 ∧
    (set_usb_driver legacy_ok no_props true (World.boot false false)).trace.countP
      is_set_failure = 0 := by
  decide

end AdbInstall
